import Mathlib

/-!
Shallow embedding of the Product catalog CRUD service.

The route layer is translated from `routes(1).py` (`check_content_type`,
`create_products`, `list_products`, `update_products`, `delete_products`).
The Product entity (`service/models.py`) is not among the sources; only its
tests and callers are, so the entity operations are modelled from the spec
(sections 3, 4.2 and 7) and each such definition says so in its doc comment.
The backing store is modelled as a list of persisted records, errors as
`Except` values.
-/

/-- Modelled from the spec: `service/models.py` defines a fixed enumeration
`Category` of catalog categories; the spec names the member `CLOTHS` and the
design notes describe enumeration-by-name lookup over its members. -/
inductive Category where
  | UNKNOWN : Category
  | CLOTHS : Category
  | FOOD : Category
  | HOUSEWARES : Category
  | AUTOMOTIVE : Category
  | TOOLS : Category
deriving DecidableEq

/-- Modelled from the spec: each enumeration member has a name string, used by
`serialize` ("category rendered as its name string"). -/
def Category.name : Category → String
  | .UNKNOWN => "UNKNOWN"
  | .CLOTHS => "CLOTHS"
  | .FOOD => "FOOD"
  | .HOUSEWARES => "HOUSEWARES"
  | .AUTOMOTIVE => "AUTOMOTIVE"
  | .TOOLS => "TOOLS"

/-- Modelled from the spec: enumeration-by-name lookup (`getattr(Category, s)`
in the route layer; "category must be one of the known enumeration members").
Returns `none` when the string is not a member name. -/
def categoryFromName (s : String) : Option Category :=
  if s = "UNKNOWN" then some Category.UNKNOWN
  else if s = "CLOTHS" then some Category.CLOTHS
  else if s = "FOOD" then some Category.FOOD
  else if s = "HOUSEWARES" then some Category.HOUSEWARES
  else if s = "AUTOMOTIVE" then some Category.AUTOMOTIVE
  else if s = "TOOLS" then some Category.TOOLS
  else none

/-- Modelled from the spec (section 3): a Product record. `id` is `none` until
the store assigns one on creation; `price` is a decimal compared exactly,
modelled as a rational. -/
structure Product where
  id : Option Int
  name : String
  description : String
  price : Rat
  available : Bool
  category : Category
deriving DecidableEq

/-- Wire values appearing in the JSON mapping exchanged with clients. -/
inductive Value where
  | vStr : String → Value
  | vNum : Rat → Value
  | vBool : Bool → Value
  | vNull : Value
deriving DecidableEq

/-- Wire data: either a JSON mapping (association list of keys to values) or
some non-mapping payload such as the list used in
`test_deserialize_dict_invalid_attr`. -/
inductive Data where
  | map : List (String × Value) → Data
  | notMap : Data
deriving DecidableEq

/-- Key lookup in a wire mapping (first binding wins, as in a Python dict
built left to right). -/
def getVal (es : List (String × Value)) (k : String) : Option Value :=
  (es.find? (fun kv => kv.1 == k)).map (fun kv => kv.2)

/-- Reading a wire value as text. The spec prescribes type validation only for
`available` and `category`, so the other fields are read by total coercion. -/
def Value.asString : Value → String
  | .vStr s => s
  | _ => ""

/-- Reading a wire value as a decimal; same remark as `Value.asString`. -/
def Value.asDecimal : Value → Rat
  | .vNum q => q
  | _ => 0

/-- Data-validation failures raised by the entity, carrying a message. -/
abbrev DataValidationError := String

/-- The backing store: the rows of the product table, in insertion order. -/
abbrev Store := List Product

/-- Modelled from the spec: `Product()` before `deserialize` populates it; a
fresh entity starts its lifecycle with `id = None`. -/
def emptyProduct : Product :=
  { id := none, name := "", description := "", price := 0,
    available := false, category := Category.UNKNOWN }

/-- Modelled from the spec: `serialize()` "produces a mapping of all attributes
with category rendered as its name string". -/
def Product.serialize (p : Product) : Data :=
  Data.map
    [("id", match p.id with | some n => Value.vNum (n : Rat) | none => Value.vNull),
     ("name", Value.vStr p.name),
     ("description", Value.vStr p.description),
     ("price", Value.vNum p.price),
     ("available", Value.vBool p.available),
     ("category", Value.vStr p.category.name)]

/-- The keys `deserialize` requires in the mapping: the required fields of
section 3 (`id` is assigned by the store, not taken from the payload). -/
def requiredKeys : List String :=
  ["name", "description", "price", "available", "category"]

/-- Modelled from the spec: `deserialize(data)` "populates attributes from a
mapping; fails with a data-validation error if `data` is not a mapping, if a
required key is missing, if `available` is not boolean, or if `category` does
not match a known enumeration name". -/
def Product.deserialize (p : Product) (d : Data) : Except DataValidationError Product :=
  match d with
  | Data.notMap => Except.error ("Invalid product: body contained bad or no data")
  | Data.map es =>
    match getVal es "name", getVal es "description", getVal es "price",
          getVal es "available", getVal es "category" with
    | some nv, some dv, some pv, some av, some cv =>
      match av with
      | Value.vBool b =>
        match cv with
        | Value.vStr cs =>
          match categoryFromName cs with
          | some cat =>
            Except.ok { p with name := nv.asString, description := dv.asString,
                               price := pv.asDecimal, available := b, category := cat }
          | none => Except.error ("Invalid category value")
        | _ => Except.error ("Invalid category value")
      | _ => Except.error ("Invalid type for boolean available")
    | _, _, _, _, _ => Except.error ("Invalid product: missing required key")

/-- An upper bound on the ids in use in the store. -/
def idBound (s : Store) : Int :=
  s.foldr (fun q acc => max (q.id.getD 0) acc) 0

/-- Modelled from the spec: the surrogate id the store assigns on insertion,
"a non-null id not previously in use" — one more than the largest id in use. -/
def freshId (s : Store) : Int :=
  idBound s + 1

/-- Modelled from the spec: `create()` inserts a new row and the store assigns
the id. -/
def Product.create (s : Store) (p : Product) : Store × Product :=
  let created := { p with id := some (freshId s) }
  (s ++ [created], created)

/-- Modelled from the spec: `find(id)` looks up the row with that id. -/
def Product.find (s : Store) (i : Int) : Option Product :=
  s.find? (fun q => q.id == some i)

/-- Modelled from the spec: `update()` "fails with a data-validation error if
id is unset; otherwise persists current field values to the existing row". -/
def Product.update (s : Store) (p : Product) : Except DataValidationError Store :=
  match p.id with
  | none => Except.error ("Update called with empty ID field")
  | some i => Except.ok (s.map (fun q => if q.id == some i then p else q))

/-- The store as the caller sees it after an `update()` call: unchanged when
the call failed, the returned store when it succeeded. -/
def storeAfterUpdate (s : Store) (p : Product) : Store :=
  match Product.update s p with
  | Except.ok t => t
  | Except.error _ => s

/-- Removes the first row whose id equals the given one, if any. -/
def eraseFirstId : Store → Option Int → Store
  | [], _ => []
  | q :: rest, i => if q.id == i then rest else q :: eraseFirstId rest i

/-- Modelled from the spec: `delete()` "removes the row if present". -/
def Product.delete (s : Store) (p : Product) : Store :=
  eraseFirstId s p.id

/-- Modelled from the spec: `all()` returns every stored product. -/
def Product.all (s : Store) : Store := s

/-- Modelled from the spec: `find_by_name(name)`, exact match. -/
def Product.find_by_name (s : Store) (n : String) : Store :=
  s.filter (fun p => p.name == n)

/-- Modelled from the spec: `find_by_category(category)`, exact match. -/
def Product.find_by_category (s : Store) (c : Category) : Store :=
  s.filter (fun p => p.category == c)

/-- Modelled from the spec: `find_by_availability` "accepts boolean or
boolean-like string"; the route layer always passes the raw query string, read
here as a boolean-like string. -/
def parseBoolLike (s : String) : Bool :=
  s.toLower == "true" || s.toLower == "yes" || s.toLower == "1"

/-- Modelled from the spec: `find_by_availability(available)` returns the
stored products with that availability. -/
def Product.find_by_availability (s : Store) (v : String) : Store :=
  s.filter (fun p => p.available == parseBoolLike v)

/-- Route-layer failures. How each is surfaced is decided by the error-handler
module, which is not among the sources; `RouteError.httpStatus` models the
spec (section 7) mapping. -/
inductive RouteError where
  | unsupported_media_type : String → RouteError
  | not_found : String → RouteError
  | bad_request : String → RouteError
deriving DecidableEq

/-- Modelled from the spec (section 7): client input errors — bad or missing
content type, malformed body, invalid enumeration value, invalid boolean — are
surfaced as 4xx with a message; absent resources as 404. -/
def RouteError.httpStatus : RouteError → Nat
  | .unsupported_media_type _ => 415
  | .not_found _ => 404
  | .bad_request _ => 400

/-- The message carried by a route-layer failure. -/
def RouteError.message : RouteError → String
  | .unsupported_media_type m => m
  | .not_found m => m
  | .bad_request m => m

/-- Python's `str.upper()` as used in `category.upper()`: uppercases the
characters of the string. -/
def pyUpper (s : String) : String :=
  String.mk (s.data.map Char.toUpper)

/-- Python truthiness of an optional query-string or header value: `None` and
the empty string are falsy. -/
def truthy : Option String → Bool
  | none => false
  | some s => !(s == "")

/-- From `check_content_type` in `routes(1).py`: aborts 415 when the header is
absent, returns when it equals the required type exactly, aborts 415 with the
same message otherwise. -/
def check_content_type (header : Option String) (content_type : String) :
    Except RouteError Unit :=
  match header with
  | none =>
    Except.error (RouteError.unsupported_media_type ("Content-Type must be " ++ content_type))
  | some v =>
    if v == content_type then Except.ok ()
    else
      Except.error (RouteError.unsupported_media_type ("Content-Type must be " ++ content_type))

/-- From `create_products` in `routes(1).py`: checks the content type,
deserializes the body into a fresh `Product()`, creates it, and answers with
the serialized product, status 201 and the Location value — which the code
leaves as the placeholder "/" (the `url_for` line is commented out). The
result carries the new store, the body, the status and the Location value. -/
def create_products (s : Store) (header : Option String) (body : Data) :
    Except RouteError (Store × Data × Nat × String) :=
  match check_content_type header "application/json" with
  | Except.error e => Except.error e
  | Except.ok _ =>
    match Product.deserialize emptyProduct body with
    | Except.error msg => Except.error (RouteError.bad_request msg)
    | Except.ok p =>
      match Product.create s p with
      | (t, created) => Except.ok (t, created.serialize, 201, "/")

/-- From `list_products` in `routes(1).py`: reads the three query parameters,
tests each for truthiness in order (name, then category, then available), and
otherwise lists all products; each result is serialized. The unmapped-category
`getattr` failure is modelled as a client-error value per spec section 7. -/
def list_products (s : Store) (name category available : Option String) :
    Except RouteError (List Data) :=
  if truthy name then
    Except.ok ((Product.find_by_name s (name.getD (""))).map Product.serialize)
  else if truthy category then
    match categoryFromName (pyUpper (category.getD (""))) with
    | some category_value =>
      Except.ok ((Product.find_by_category s category_value).map Product.serialize)
    | none =>
      Except.error (RouteError.bad_request ("Invalid category: " ++ category.getD ("")))
  else if truthy available then
    Except.ok ((Product.find_by_availability s (available.getD (""))).map Product.serialize)
  else
    Except.ok ((Product.all s).map Product.serialize)

/-- From `update_products` in `routes(1).py`: checks the content type, then
looks the product up (404 if absent), deserializes the body into it, forces
the id to the path parameter, updates, and answers the serialized product with
status 200. -/
def update_products (s : Store) (header : Option String) (product_id : Int)
    (body : Data) : Except RouteError (Store × Data × Nat) :=
  match check_content_type header "application/json" with
  | Except.error e => Except.error e
  | Except.ok _ =>
    match Product.find s product_id with
    | none => Except.error (RouteError.not_found ("Product not found"))
    | some p =>
      match Product.deserialize p body with
      | Except.error msg => Except.error (RouteError.bad_request msg)
      | Except.ok q =>
        match Product.update s { q with id := some product_id } with
        | Except.ok t => Except.ok (t, Product.serialize { q with id := some product_id }, 200)
        | Except.error msg => Except.error (RouteError.bad_request msg)

/-- From `delete_products` in `routes(1).py`: finds the product, deletes it
when present, and always answers an empty body with status 204. -/
def delete_products (s : Store) (i : Int) : Store × String × Nat :=
  match Product.find s i with
  | some p => (Product.delete s p, "", 204)
  | none => (s, "", 204)

/-- The example product of spec section 8, before creation. -/
def fedora : Product :=
  { id := none, name := "Fedora", description := "A red hat", price := 25 / 2,
    available := true, category := Category.CLOTHS }

/-- The example product as stored under id 1. -/
def storedFedora : Product :=
  { fedora with id := some 1 }

theorem categoryFromName_name (c : Category) :
    categoryFromName (Category.name c) = some c := by
  cases c <;> rfl

theorem eq_name_of_categoryFromName (s : String) (c : Category)
    (h : categoryFromName s = some c) : s = Category.name c := by
  unfold categoryFromName at h
  split_ifs at h with h1 h2 h3 h4 h5 h6 <;>
    (injection h with h0; rw [← h0]; assumption)

theorem mem_id_le_idBound (s : Store) (q : Product) (m : Int)
    (hq : q ∈ s) (hm : q.id = some m) : m ≤ idBound s := by
  induction s with
  | nil => cases hq
  | cons r t ih =>
    rcases List.mem_cons.mp hq with h | h
    · subst h
      have : q.id.getD 0 = m := by rw [hm]; rfl
      calc m = q.id.getD 0 := this.symm
        _ ≤ max (q.id.getD 0) (idBound t) := le_max_left _ _
    · calc m ≤ idBound t := ih h
        _ ≤ max (r.id.getD 0) (idBound t) := le_max_right _ _

theorem find_append_single (s : Store) (p : Product) (n : Int)
    (hp : p.id = some n) (hs : ∀ q, q ∈ s → q.id ≠ some n) :
    Product.find (s ++ [p]) n = some p := by
  induction s with
  | nil =>
    have hb : (p.id == some n) = true := by rw [hp]; simp
    simp [Product.find, List.find?, hb]
  | cons r t ih =>
    have hr : (r.id == some n) = false := by
      have := hs r (List.mem_cons_self r t)
      simpa using this
    have ht : ∀ q, q ∈ t → q.id ≠ some n := fun q hq => hs q (List.mem_cons_of_mem r hq)
    simpa [Product.find, List.find?, hr] using ih ht

theorem length_delete_of_find (s : Store) (i : Int) (p : Product)
    (hf : Product.find s i = some p) :
    (Product.delete s p).length + 1 = s.length := by
  have hpi : p.id = some i := by
    have hb := List.find?_some hf
    simpa using hb
  rw [Product.delete, hpi]
  clear hpi
  induction s with
  | nil => cases hf
  | cons r t ih =>
    by_cases hr : (r.id == some i) = true
    · simp [eraseFirstId, hr]
    · have hr0 : (r.id == some i) = false := by simpa using hr
      have ht : Product.find t i = some p := by
        have := hf
        rw [Product.find, List.find?] at this
        rw [hr0] at this
        exact this
      simp only [eraseFirstId, hr0, Bool.false_eq_true, if_false, List.length_cons]
      rw [ih ht]

/-- C1: for every valid product `p`, deserializing its own serialization
reproduces a product with the same id, name, description, price, available
and category; the category survives the round trip through its enumeration
name string. -/
theorem deserialize_serialize_roundtrip (p : Product) :
    Product.deserialize p p.serialize = Except.ok p := by
  cases p with
  | mk i nm ds pr av ct => cases ct <;> rfl

/-- C3: for every product whose id is `none`, `update()` fails with a
data-validation error and the backing store is unchanged. -/
theorem update_with_empty_id_fails (s : Store) (p : Product) (h : p.id = none) :
    Product.update s p = Except.error ("Update called with empty ID field") ∧
    storeAfterUpdate s p = s := by
  constructor
  · simp [Product.update, h]
  · simp [storeAfterUpdate, Product.update, h]

/-- Witness for C3: updating the unsaved example product against a one-row
store fails and leaves the row in place. -/
theorem update_with_empty_id_fails_witness :
    fedora.id = none ∧
    (Product.update [storedFedora] fedora =
       Except.error ("Update called with empty ID field") ∧
     storeAfterUpdate [storedFedora] fedora = [storedFedora]) :=
  ⟨rfl, update_with_empty_id_fails [storedFedora] fedora rfl⟩

/-- C5: DELETE on a product id always answers an empty body with status 204;
when the id is present it removes exactly one record, and when it is absent
the store is unchanged. -/
theorem delete_products_idempotent (s : Store) (i : Int) :
    (delete_products s i).2 = ("", 204) ∧
    (if (Product.find s i).isSome then (delete_products s i).1.length + 1 = s.length
     else (delete_products s i).1 = s) := by
  cases hf : Product.find s i with
  | none => simp [delete_products, hf]
  | some p =>
    have hl := length_delete_of_find s i p hf
    refine ⟨by simp [delete_products, hf], ?_⟩
    simp [delete_products, hf, hl]

/-- C6: the GET /products filters are applied with mutually exclusive
precedence name, then category (through the mapped enumeration value), then
available, else all products, each result serialized. -/
theorem list_products_filter_precedence (s : Store) (n c a : Option String) :
    (∀ ns, n = some ns → ns ≠ "" →
      list_products s n c a =
        Except.ok ((Product.find_by_name s ns).map Product.serialize)) ∧
    (truthy n = false → ∀ cs cv, c = some cs → cs ≠ "" →
      categoryFromName (pyUpper cs) = some cv →
      list_products s n c a =
        Except.ok ((Product.find_by_category s cv).map Product.serialize)) ∧
    (truthy n = false → truthy c = false → ∀ av, a = some av → av ≠ "" →
      list_products s n c a =
        Except.ok ((Product.find_by_availability s av).map Product.serialize)) ∧
    (truthy n = false → truthy c = false → truthy a = false →
      list_products s n c a = Except.ok ((Product.all s).map Product.serialize)) := by
  refine ⟨?_, ?_, ?_, ?_⟩
  · intro ns hn hne
    subst hn
    have ht : truthy (some ns) = true := by simp [truthy, hne]
    simp [list_products, ht]
  · intro hn cs cv hc hcne hcv
    subst hc
    have ht : truthy (some cs) = true := by simp [truthy, hcne]
    simp [list_products, hn, ht, hcv]
  · intro hn hc av hav havne
    subst hav
    have ht : truthy (some av) = true := by simp [truthy, havne]
    simp [list_products, hn, hc, ht]
  · intro hn hc ha
    simp [list_products, hn, hc, ha]

/-- C9: a query parameter that is present with an empty-string value is
treated exactly like an absent one in GET /products, for each of the three
filter parameters. -/
theorem empty_query_params_treated_as_absent (s : Store) (n c a : Option String) :
    list_products s (some ("")) c a = list_products s none c a ∧
    list_products s n (some ("")) a = list_products s n none a ∧
    list_products s n c (some ("")) = list_products s n c none := by
  refine ⟨?_, ?_, ?_⟩ <;> simp [list_products, truthy]

/-- C10: POST /products and PUT /products/id compare the Content-Type header
to application/json by exact string equality; a missing header or any other
value is rejected with a 415 unsupported-media-type error whose message names
the required type. -/
theorem content_type_exact_match_required (s : Store) (d : Data) (product_id : Int)
    (header : Option String) (h : header ≠ some ("application/json")) :
    create_products s header d =
      Except.error (RouteError.unsupported_media_type ("Content-Type must be application/json")) ∧
    update_products s header product_id d =
      Except.error (RouteError.unsupported_media_type ("Content-Type must be application/json")) ∧
    RouteError.httpStatus
      (RouteError.unsupported_media_type ("Content-Type must be application/json")) = 415 := by
  have hcc : check_content_type header "application/json" =
      Except.error (RouteError.unsupported_media_type ("Content-Type must be application/json")) := by
    cases header with
    | none => rfl
    | some v =>
      have hv : ¬(v = "application/json") := by
        intro he
        exact h (by rw [he])
      simp [check_content_type, hv]
  refine ⟨?_, ?_, rfl⟩
  · simp [create_products, hcc]
  · simp [update_products, hcc]

/-- Witness for C10: a charset-qualified JSON content type is rejected by both
routes with the 415 error. -/
theorem content_type_exact_match_required_witness :
    (some ("application/json; charset=utf-8") ≠ some ("application/json")) ∧
    (create_products [] (some ("application/json; charset=utf-8")) Data.notMap =
       Except.error (RouteError.unsupported_media_type ("Content-Type must be application/json")) ∧
     update_products [] (some ("application/json; charset=utf-8")) 7 Data.notMap =
       Except.error (RouteError.unsupported_media_type ("Content-Type must be application/json")) ∧
     RouteError.httpStatus
       (RouteError.unsupported_media_type ("Content-Type must be application/json")) = 415) :=
  ⟨by decide, content_type_exact_match_required [] Data.notMap 7
      (some ("application/json; charset=utf-8")) (by decide)⟩

/-- C2: creating a product with unset id assigns a non-null id not previously
in use, and `find` on that id returns the stored record, whose name,
description, price (exact decimal), available and category equal the created
product's values. -/
theorem create_then_find (s : Store) (p : Product) (_h : p.id = none) :
    (Product.create s p).2.id ≠ none ∧
    (∀ q, q ∈ s → q.id ≠ (Product.create s p).2.id) ∧
    Product.find (Product.create s p).1 (((Product.create s p).2.id).getD 0) =
      some (Product.create s p).2 ∧
    (Product.create s p).2.name = p.name ∧
    (Product.create s p).2.description = p.description ∧
    (Product.create s p).2.price = p.price ∧
    (Product.create s p).2.available = p.available ∧
    (Product.create s p).2.category = p.category := by
  have hid : (Product.create s p).2.id = some (freshId s) := rfl
  have hnomem : ∀ q, q ∈ s → q.id ≠ some (freshId s) := by
    intro q hq heq
    have hle := mem_id_le_idBound s q (freshId s) hq heq
    have hfs : freshId s = idBound s + 1 := rfl
    rw [hfs] at hle
    omega
  refine ⟨?_, ?_, ?_, rfl, rfl, rfl, rfl, rfl⟩
  · rw [hid]
    simp
  · intro q hq heq
    rw [hid] at heq
    exact hnomem q hq heq
  · have hfind := find_append_single s { p with id := some (freshId s) } (freshId s) rfl hnomem
    simpa [Product.create] using hfind

/-- Witness for C2 at the example product created against the empty store. -/
theorem create_then_find_witness :
    fedora.id = none ∧
    ((Product.create [] fedora).2.id ≠ none ∧
     (∀ q, q ∈ ([] : Store) → q.id ≠ (Product.create [] fedora).2.id) ∧
     Product.find (Product.create [] fedora).1 (((Product.create [] fedora).2.id).getD 0) =
       some (Product.create [] fedora).2 ∧
     (Product.create [] fedora).2.name = fedora.name ∧
     (Product.create [] fedora).2.description = fedora.description ∧
     (Product.create [] fedora).2.price = fedora.price ∧
     (Product.create [] fedora).2.available = fedora.available ∧
     (Product.create [] fedora).2.category = fedora.category) :=
  ⟨rfl, create_then_find [] fedora rfl⟩

/-- The failure conditions the spec states for `deserialize(data)`, written
from the claim's words: the data is not a mapping, a required key is missing,
the value for available is not a boolean, or the value for category does not
match a known enumeration name. -/
def deserialize_fails_spec : Data → Prop
  | Data.notMap => True
  | Data.map es =>
    (∃ k, k ∈ requiredKeys ∧ getVal es k = none) ∨
    (∀ b : Bool, getVal es "available" ≠ some (Value.vBool b)) ∨
    (∀ c : Category, getVal es "category" ≠ some (Value.vStr (Category.name c)))

/-- C4: `deserialize(data)` fails with a data-validation error exactly when
the data is not a mapping, a required key is missing, the available value is
not a boolean, or the category value does not match a known enumeration name;
otherwise it succeeds. -/
theorem deserialize_error_iff (p : Product) (d : Data) :
    (∃ e, Product.deserialize p d = Except.error e) ↔ deserialize_fails_spec d := by
  cases d with
  | notMap => exact iff_of_true ⟨_, rfl⟩ trivial
  | map es =>
    cases hn : getVal es "name" with
    | none =>
      have herr : Product.deserialize p (Data.map es) =
          Except.error ("Invalid product: missing required key") := by
        simp [Product.deserialize, hn]
      exact iff_of_true ⟨_, herr⟩ (Or.inl ⟨"name", by simp [requiredKeys], hn⟩)
    | some nv =>
    cases hd : getVal es "description" with
    | none =>
      have herr : Product.deserialize p (Data.map es) =
          Except.error ("Invalid product: missing required key") := by
        simp [Product.deserialize, hn, hd]
      exact iff_of_true ⟨_, herr⟩ (Or.inl ⟨"description", by simp [requiredKeys], hd⟩)
    | some dv =>
    cases hp : getVal es "price" with
    | none =>
      have herr : Product.deserialize p (Data.map es) =
          Except.error ("Invalid product: missing required key") := by
        simp [Product.deserialize, hn, hd, hp]
      exact iff_of_true ⟨_, herr⟩ (Or.inl ⟨"price", by simp [requiredKeys], hp⟩)
    | some pv =>
    cases ha : getVal es "available" with
    | none =>
      have herr : Product.deserialize p (Data.map es) =
          Except.error ("Invalid product: missing required key") := by
        simp [Product.deserialize, hn, hd, hp, ha]
      exact iff_of_true ⟨_, herr⟩ (Or.inl ⟨"available", by simp [requiredKeys], ha⟩)
    | some av =>
    cases hc : getVal es "category" with
    | none =>
      have herr : Product.deserialize p (Data.map es) =
          Except.error ("Invalid product: missing required key") := by
        simp [Product.deserialize, hn, hd, hp, ha, hc]
      exact iff_of_true ⟨_, herr⟩ (Or.inl ⟨"category", by simp [requiredKeys], hc⟩)
    | some cv =>
      cases av with
      | vStr s1 =>
        have herr : Product.deserialize p (Data.map es) =
            Except.error ("Invalid type for boolean available") := by
          simp [Product.deserialize, hn, hd, hp, ha, hc]
        refine iff_of_true ⟨_, herr⟩ (Or.inr (Or.inl ?_))
        intro b hb
        rw [ha] at hb
        simp at hb
      | vNum q1 =>
        have herr : Product.deserialize p (Data.map es) =
            Except.error ("Invalid type for boolean available") := by
          simp [Product.deserialize, hn, hd, hp, ha, hc]
        refine iff_of_true ⟨_, herr⟩ (Or.inr (Or.inl ?_))
        intro b hb
        rw [ha] at hb
        simp at hb
      | vNull =>
        have herr : Product.deserialize p (Data.map es) =
            Except.error ("Invalid type for boolean available") := by
          simp [Product.deserialize, hn, hd, hp, ha, hc]
        refine iff_of_true ⟨_, herr⟩ (Or.inr (Or.inl ?_))
        intro b hb
        rw [ha] at hb
        simp at hb
      | vBool b =>
        cases cv with
        | vNum q2 =>
          have herr : Product.deserialize p (Data.map es) =
              Except.error ("Invalid category value") := by
            simp [Product.deserialize, hn, hd, hp, ha, hc]
          refine iff_of_true ⟨_, herr⟩ (Or.inr (Or.inr ?_))
          intro c0 hcb
          rw [hc] at hcb
          simp at hcb
        | vBool b2 =>
          have herr : Product.deserialize p (Data.map es) =
              Except.error ("Invalid category value") := by
            simp [Product.deserialize, hn, hd, hp, ha, hc]
          refine iff_of_true ⟨_, herr⟩ (Or.inr (Or.inr ?_))
          intro c0 hcb
          rw [hc] at hcb
          simp at hcb
        | vNull =>
          have herr : Product.deserialize p (Data.map es) =
              Except.error ("Invalid category value") := by
            simp [Product.deserialize, hn, hd, hp, ha, hc]
          refine iff_of_true ⟨_, herr⟩ (Or.inr (Or.inr ?_))
          intro c0 hcb
          rw [hc] at hcb
          simp at hcb
        | vStr cs =>
          cases hcf : categoryFromName cs with
          | none =>
            have herr : Product.deserialize p (Data.map es) =
                Except.error ("Invalid category value") := by
              simp [Product.deserialize, hn, hd, hp, ha, hc, hcf]
            refine iff_of_true ⟨_, herr⟩ (Or.inr (Or.inr ?_))
            intro c0 hcb
            rw [hc] at hcb
            simp at hcb
            rw [hcb] at hcf
            rw [categoryFromName_name] at hcf
            cases hcf
          | some cat =>
            have hok : Product.deserialize p (Data.map es) =
                Except.ok { p with name := nv.asString, description := dv.asString,
                                   price := pv.asDecimal, available := b, category := cat } := by
              simp [Product.deserialize, hn, hd, hp, ha, hc, hcf]
            refine iff_of_false ?_ ?_
            · rintro ⟨e, he⟩
              rw [hok] at he
              cases he
            · rintro (⟨k, hk, hnone⟩ | hB | hC)
              · simp [requiredKeys] at hk
                rcases hk with rfl | rfl | rfl | rfl | rfl
                · simp [hn] at hnone
                · simp [hd] at hnone
                · simp [hp] at hnone
                · simp [ha] at hnone
                · simp [hc] at hnone
              · exact hB b ha
              · refine hC cat ?_
                rw [hc, eq_name_of_categoryFromName cs cat hcf]

/-- C7: when the name filter is not given and the category query value does
not map case-insensitively to a known enumeration member, GET /products fails
and the failure is a 4xx client error carrying a message, not an internal
server error. -/
theorem invalid_category_is_client_error (s : Store) (name available : Option String)
    (c : String) (hn : truthy name = false) (hc : c ≠ "")
    (hm : categoryFromName (pyUpper c) = none) :
    list_products s name (some c) available =
      Except.error (RouteError.bad_request ("Invalid category: " ++ c)) ∧
    400 ≤ RouteError.httpStatus (RouteError.bad_request ("Invalid category: " ++ c)) ∧
    RouteError.httpStatus (RouteError.bad_request ("Invalid category: " ++ c)) < 500 ∧
    RouteError.message (RouteError.bad_request ("Invalid category: " ++ c)) ≠ "" := by
  have ht : truthy (some c) = true := by simp [truthy, hc]
  refine ⟨?_, by norm_num [RouteError.httpStatus], by norm_num [RouteError.httpStatus], ?_⟩
  · simp [list_products, hn, ht, hm]
  · simp only [RouteError.message]
    intro hmsg
    have hlen := congrArg String.length hmsg
    rw [String.length_append] at hlen
    have h18 : ("Invalid category: ").length = 18 := rfl
    have h0 : ("" : String).length = 0 := rfl
    rw [h18, h0] at hlen
    omega

/-- Witness for C7: the unmapped category value toys against the empty store. -/
theorem invalid_category_is_client_error_witness :
    truthy none = false ∧ ("toys" : String) ≠ "" ∧
    categoryFromName (pyUpper ("toys")) = none ∧
    (list_products [] none (some ("toys")) none =
       Except.error (RouteError.bad_request ("Invalid category: " ++ "toys")) ∧
     400 ≤ RouteError.httpStatus (RouteError.bad_request ("Invalid category: " ++ "toys")) ∧
     RouteError.httpStatus (RouteError.bad_request ("Invalid category: " ++ "toys")) < 500 ∧
     RouteError.message (RouteError.bad_request ("Invalid category: " ++ "toys")) ≠ "") :=
  ⟨rfl, by decide, by decide,
   invalid_category_is_client_error [] none none ("toys") rfl (by decide) (by decide)⟩

/-- The example POST body of spec section 8. -/
def fedoraBody : Data :=
  Data.map
    [("name", Value.vStr ("Fedora")),
     ("description", Value.vStr ("A red hat")),
     ("price", Value.vNum (25 / 2)),
     ("available", Value.vBool true),
     ("category", Value.vStr ("CLOTHS"))]

/-- C8: evaluating `create_products` on the example request: the route answers
the serialized created product with status 201, but the Location value is the
placeholder "/" left in the code, not a reference to the created product
resource such as the path built from its new id. -/
theorem create_products_location_is_placeholder :
    create_products [] (some ("application/json")) fedoraBody =
      Except.ok ([storedFedora], Product.serialize storedFedora, 201, "/") ∧
    "/" ≠ "/products/" ++ toString (1 : Int) := by
  constructor
  · rfl
  · decide
